import Mathlib

/-!
Verification of the multi-strategy project identity resolution engine and its
cache layer (`app/services/project_mapper.py`, `app/services/project_vector_mapper.py`,
`app/utils/cache_loader.py`, `scripts/preprocess_documents.py`).

Modelling conventions:
* Python floats are modelled as real numbers (`ℝ`); `numpy` vectors as `List ℝ`.
* Python dicts are modelled as insertion-ordered association lists; `d.get(k)`
  is association-list lookup of the first matching key.
* The ollama embedding backend is an external collaborator and is modelled as a
  parameter `embed : String → Option (List ℝ)`; `none` stands for a backend
  call that raises (the caller catches the exception and returns `[]`).
* `difflib.SequenceMatcher(None, a, b).ratio()` is Python-stdlib code outside
  this repository; it is modelled as a parameter `ratioFn : String → String → ℝ`.
* `datetime` values and file mtimes are modelled as abstract `Nat` timestamps;
  `isoformat`/`fromisoformat` round-trip faithfully and are modelled as the
  identity on those timestamps.
* `pickle.dump`/`pickle.load` round-trip Python objects faithfully; a binary
  cache file therefore stores either the entity itself (`CacheBlob.pickled`) or
  an undecodable blob (`CacheBlob.corrupt`).
-/

/-- Association-list lookup, modelling Python `dict.get(key)` (first match). -/
def mget {α : Type} (d : List (String × α)) (k : String) : Option α :=
  (d.find? (fun kv => kv.1 == k)).map (·.2)

/-- Python truthiness of an optional string: `None` and `""` are falsy. -/
def truthyStr : Option String → Bool
  | none => false
  | some s => !(s == "")

/-- Python `project_info.get(key)` used in a boolean context followed by a read:
returns the value only when the key is present with a truthy (non-null,
non-empty) string value. -/
def pget (d : List (String × Option String)) (k : String) : Option String :=
  match mget d k with
  | some (some s) => if s == "" then none else some s
  | _ => none

/-- Python `str.strip()`: drop leading and trailing whitespace. -/
def pyStrip (s : String) : String :=
  String.mk ((s.toList.dropWhile Char.isWhitespace).reverse.dropWhile Char.isWhitespace).reverse

/-- Python substring test `needle in hay` on strings (contiguous codepoints). -/
def inStr (needle hay : String) : Prop :=
  needle.toList <:+: hay.toList

instance (needle hay : String) : Decidable (inStr needle hay) :=
  inferInstanceAs (Decidable (needle.toList <:+: hay.toList))

/- ===== project_vector_mapper._cosine_similarity (lines 227-239) ===== -/

/-- Dot product of two vectors, `np.dot(vec1, vec2)` for 1-D arrays.
(The source only ever calls it on equal-length embedding vectors; extra
trailing entries of the longer vector are ignored by this model.) -/
def dotList : List ℝ → List ℝ → ℝ
  | x :: xs, y :: ys => x * y + dotList xs ys
  | _, _ => 0

/-- Sum of squares of the entries, so that `np.linalg.norm v = Real.sqrt (sumSq v)`. -/
def sumSq (v : List ℝ) : ℝ := dotList v v

/-- `ProjectVectorMapper._cosine_similarity`: `dot_product / (norm1 * norm2)`,
returning `0.0` when either `norm1` or `norm2` is zero.  Note the source
returns the raw quotient — there is no clamping of negative cosine values. -/
noncomputable def cosine_similarity (vec1 vec2 : List ℝ) : ℝ :=
  if Real.sqrt (sumSq vec1) = 0 ∨ Real.sqrt (sumSq vec2) = 0 then 0
  else dotList vec1 vec2 / (Real.sqrt (sumSq vec1) * Real.sqrt (sumSq vec2))

/- ===== tokenization (re.findall over the CJK/alnum character class) ===== -/

/-- Membership in the regex character class `[ぁ-んァ-ヶ一-龠a-zA-Z0-9]`
(plus `-` when `hyphen` is set, matching the class used in
`generate_search_reasoning`). -/
def isTokenChar (hyphen : Bool) (c : Char) : Bool :=
  (0x3041 ≤ c.toNat && c.toNat ≤ 0x3093) ||
  (0x30A1 ≤ c.toNat && c.toNat ≤ 0x30F6) ||
  (0x4E00 ≤ c.toNat && c.toNat ≤ 0x9FA0) ||
  (0x61 ≤ c.toNat && c.toNat ≤ 0x7A) ||
  (0x41 ≤ c.toNat && c.toNat ≤ 0x5A) ||
  (0x30 ≤ c.toNat && c.toNat ≤ 0x39) ||
  (hyphen && c == '-')

/-- Helper for `tokenize`: scans the characters, accumulating the current run
(in reverse) and emitting maximal runs of token characters. -/
def tokenizeChars (hyphen : Bool) : List Char → List Char → List String
  | [], cur => if cur.isEmpty then [] else [String.mk cur.reverse]
  | c :: cs, cur =>
    if isTokenChar hyphen c then tokenizeChars hyphen cs (c :: cur)
    else if cur.isEmpty then tokenizeChars hyphen cs []
    else String.mk cur.reverse :: tokenizeChars hyphen cs []

/-- `re.findall(r'[ぁ-んァ-ヶ一-龠a-zA-Z0-9(-)]+', s)`: the maximal runs of
token characters in `s`. -/
def tokenize (hyphen : Bool) (s : String) : List String :=
  tokenizeChars hyphen s.toList []

/-- Python `set(...)` of a list of strings, modelled as the deduplicated list.
Membership and cardinality agree with the Python set; only the (unspecified)
iteration order may differ, which the source never relies on for anything but
the order of purely informational output lists. -/
def pySet (l : List String) : List String := l.eraseDups

/- ===== project_vector_mapper: state and search (lines 19-261) ===== -/

/-- The mutable state of `ProjectVectorMapper`: `project_vectors` (dict
`project_id → np.ndarray`, loaded from `project_vectors.pkl`) and
`project_metadata` (dict `project_id → metadata dict`, loaded from
`project_metadata.json`).  Metadata values are string fields; the non-string
entries (`embedding_time`, `added_at`) are never read by the modelled code. -/
structure VectorState where
  project_vectors : List (String × List ℝ)
  project_metadata : List (String × List (String × String))

/-- `VectorSearchResult` dataclass. -/
structure VectorSearchResult where
  project_id : String
  similarity_score : ℝ
  matched_keywords : List String

/-- `ProjectVectorMapper._extract_matched_keywords` (lines 241-261): exact
token intersection plus fuzzy pairs with `SequenceMatcher` ratio ≥ 0.8,
rendered as `"q≈d"`. -/
noncomputable def extract_matched_keywords (ratioFn : String → String → ℝ)
    (query description : String) : List String :=
  let query_words := pySet (tokenize false query)
  let desc_words := pySet (tokenize false description)
  let exact_matched := query_words.filter (fun w => w ∈ desc_words)
  let fuzzy_matched := query_words.flatMap (fun q =>
    desc_words.filterMap (fun d =>
      if q ∉ exact_matched ∧ d ∉ exact_matched ∧ (0.8 : ℝ) ≤ ratioFn q d
      then some (q ++ "≈" ++ d) else none))
  exact_matched ++ fuzzy_matched

/-- The `(project_id, similarity)` pairs computed by
`search_similar_projects` before sorting (lines 193-200): one cosine
similarity per stored vector, kept when `similarity >= similarity_threshold`,
in dict insertion order.  `embed` failing (`none`) models the backend raising,
in which case the surrounding `except` makes the search return `[]`. -/
noncomputable def similarity_pairs (vm : VectorState) (embed : String → Option (List ℝ))
    (query_text : String) (threshold : ℝ) : List (String × ℝ) :=
  match embed query_text with
  | none => []
  | some query_vector =>
    vm.project_vectors.filterMap (fun pv =>
      if threshold ≤ cosine_similarity query_vector pv.2
      then some (pv.1, cosine_similarity query_vector pv.2) else none)

/-- Descending-by-similarity order used by `similarities.sort(key=lambda x:
x[1], reverse=True)`. -/
def simDescRel (p q : String × ℝ) : Prop := q.2 ≤ p.2

noncomputable instance : DecidableRel simDescRel := fun p q =>
  inferInstanceAs (Decidable (q.2 ≤ p.2))

instance : IsTotal (String × ℝ) simDescRel := ⟨fun a b => le_total b.2 a.2⟩

instance : IsTrans (String × ℝ) simDescRel := ⟨fun _ _ _ h1 h2 => le_trans h2 h1⟩

/-- Python `list.sort(key=lambda x: x[1], reverse=True)`: a stable descending
sort by the similarity component.  A stable sort w.r.t. a total preorder is
unique, so insertion sort reproduces Timsort's output exactly. -/
noncomputable def sortBySimDesc (l : List (String × ℝ)) : List (String × ℝ) :=
  List.insertionSort simDescRel l

/-- The description text used for keyword extraction:
`self.project_metadata.get(project_id, {}).get('description', '')`. -/
def descriptionOf (vm : VectorState) (project_id : String) : String :=
  (mget ((mget vm.project_metadata project_id).getD []) "description").getD ""

/-- `ProjectVectorMapper.search_similar_projects` (lines 167-225): empty when
no vectors are stored (or the backend raises); otherwise the threshold-filtered
similarity pairs, sorted descending by similarity (stable), truncated to
`top_k`, each paired with its matched keywords. -/
noncomputable def search_similar_projects (ratioFn : String → String → ℝ)
    (vm : VectorState) (embed : String → Option (List ℝ))
    (query_text : String) (top_k : ℕ) (threshold : ℝ) : List VectorSearchResult :=
  if vm.project_vectors.isEmpty then []
  else
    ((sortBySimDesc (similarity_pairs vm embed query_text threshold)).take top_k).map
      (fun pr =>
        { project_id := pr.1
          similarity_score := pr.2
          matched_keywords := extract_matched_keywords ratioFn query_text (descriptionOf vm pr.1) })

/- ===== project_vector_mapper.generate_search_reasoning (lines 263-376) ===== -/

/-- One entry of `reasoning_details["matched_elements"]`. -/
structure MatchedElement where
  fieldLabel : String
  master_value : String
  matchKind : String
  similarity : ℝ

/-- One entry of `reasoning_details["fuzzy_matches"]`. -/
structure FuzzyMatch where
  fieldLabel : String
  master_value : String
  query_value : String
  similarity : ℝ

/-- The fields of the `reasoning_details` dict that carry structured data
(the human-readable `reason` string is presentation only). -/
structure SearchReasoning where
  vector_similarity : ℝ
  project_id : String
  matched_elements : List MatchedElement
  fuzzy_matches : List FuzzyMatch
  confidence : ℝ

/-- The per-field match analysis of `generate_search_reasoning`
(lines 301-345), folded over the five master fields in order. -/
noncomputable def gsrMatchStep (ratioFn : String → String → ℝ)
    (md : List (String × String)) (query_text : String) (query_words : List String)
    (acc : List MatchedElement × List FuzzyMatch) (fk : String × String) :
    List MatchedElement × List FuzzyMatch :=
  let field_value := (mget md fk.1).getD ""
  if field_value = "" ∨ field_value = "不明" then acc
  else if inStr field_value query_text then
    (acc.1 ++ [{ fieldLabel := fk.2, master_value := field_value,
                 matchKind := "完全一致", similarity := 1 }], acc.2)
  else
    (pySet (tokenize true field_value)).foldl (fun acc2 fw =>
      if fw.length < 2 then acc2
      else if fw ∈ query_words then
        (acc2.1 ++ [{ fieldLabel := fk.2, master_value := fw,
                      matchKind := "部分一致", similarity := 1 }], acc2.2)
      else
        (acc2.1, acc2.2 ++ query_words.filterMap (fun qw =>
          if qw.length < 2 then none
          else if (0.8 : ℝ) ≤ ratioFn fw qw then
            some { fieldLabel := fk.2, master_value := fw, query_value := qw,
                   similarity := ratioFn fw qw }
          else none))) acc

/-- The five `master_fields` of `generate_search_reasoning` in source order. -/
def gsrMasterFields : List (String × String) :=
  [("station_name", "局名"), ("station_number", "局番"), ("location", "所在地"),
   ("aurora_plan", "Auroraプラン"), ("responsible_person", "担当者")]

/-- `ProjectVectorMapper.generate_search_reasoning`: `none` models the
structurally different `no_results` dict (whose `confidence` is `0.0`);
otherwise the structured reasoning for the top result.  The confidence starts
at the vector similarity, is capped at 0.6 when the generated reason has no
match parts, and is then boosted by `0.05` per match (exact + fuzzy) and
capped at 0.95 when at least one match exists. -/
noncomputable def generate_search_reasoning (ratioFn : String → String → ℝ)
    (project_metadata : List (String × List (String × String)))
    (query_text : String) (search_results : List VectorSearchResult) :
    Option SearchReasoning :=
  match search_results with
  | [] => none
  | top :: _ =>
    let md := (mget project_metadata top.project_id).getD []
    let query_words := pySet (tokenize true query_text)
    let mf := gsrMasterFields.foldl (gsrMatchStep ratioFn md query_text query_words) ([], [])
    let exact_matches := mf.1.filter
      (fun m => m.matchKind == "完全一致" || m.matchKind == "部分一致")
    let conf1 :=
      if exact_matches.isEmpty ∧ mf.2.isEmpty then min top.similarity_score 0.6
      else top.similarity_score
    let match_count := mf.1.length + mf.2.length
    let conf2 :=
      if 0 < match_count then min (conf1 + (match_count : ℝ) * 0.05) 0.95 else conf1
    some { vector_similarity := top.similarity_score, project_id := top.project_id,
           matched_elements := mf.1, fuzzy_matches := mf.2, confidence := conf2 }

/-- The confidence-adjustment formula claimed by the specification: base is
the vector similarity; with `mc` lexical matches the confidence is boosted by
`0.05` per match and capped at 0.95; with no match it is capped at 0.6. -/
noncomputable def adjusted_confidence (sim : ℝ) (mc : ℕ) : ℝ :=
  if mc = 0 then min sim 0.6 else min (sim + (mc : ℝ) * 0.05) 0.95

/- ===== project_mapper.py ===== -/

/-- One record of the project master
(`data/sample_construction_data/project_reports_mapping.json`).  Only
`project_id` is read on the resolution paths modelled here. -/
structure ProjectRecord where
  project_id : String
  project_name : String
  location : String

/-- A Python value stored in `ProjectMapping.extracted_info` (string, `None`,
float, or list of strings). -/
inductive InfoVal where
  | pyStr : String → InfoVal
  | pyNone : InfoVal
  | pyNum : ℝ → InfoVal
  | pyList : List String → InfoVal

/-- `ProjectMapping` dataclass. -/
structure ProjectMapping where
  project_id : Option String
  confidence_score : ℝ
  matching_method : String
  alternative_candidates : List String
  extracted_info : List (String × InfoVal)

/-- The `llm_extracted_info` dict as read by `ProjectMapper`: the
`project_info` entry is a dict whose values may be JSON strings or nulls.
`project_info := none` covers the key being absent or mapped to a falsy value
other than `{}` (both fail the `'project_info' in llm_info and
llm_info['project_info']` guard, as does an empty dict). -/
structure LlmInfo where
  project_info : Option (List (String × Option String))

/-- The truthiness guard `'project_info' in llm_info and llm_info['project_info']`:
an empty dict is falsy. -/
def truthy_project_info (info : LlmInfo) : Option (List (String × Option String)) :=
  match info.project_info with
  | some d => if d.isEmpty then none else some d
  | none => none

/-- Lines 147-149 of `_strategy_direct_id_extraction`:
`llm_info['project_info'].get('project_id', '').strip()`.  When the key is
present but holds JSON `null`, `.strip()` is called on `None` and the
uncaught `AttributeError` propagates (modelled as `Except.error`).  Python
`str.strip()` is modelled by `pyStrip`. -/
def llm_extracted_id (info : LlmInfo) : Except String (Option String) :=
  match truthy_project_info info with
  | none => Except.ok none
  | some d =>
    match mget d "project_id" with
    | none => Except.ok (some (pyStrip ""))
    | some none => Except.error "AttributeError: NoneType object has no attribute strip"
    | some (some s) => Except.ok (some (pyStrip s))

/-- `ProjectMapper._strategy_direct_id_extraction` (lines 143-175): accept the
LLM-extracted id only when it is truthy, differs from the sentinel `"不明"`,
and occurs verbatim in the master ids; otherwise report failure. -/
def strategy_direct_id_extraction (master : List ProjectRecord) (info : LlmInfo) :
    Except String ProjectMapping :=
  match llm_extracted_id info with
  | Except.error e => Except.error e
  | Except.ok llm_project_id =>
    match llm_project_id with
    | some pid =>
      if pid ≠ "" ∧ pid ≠ "不明" ∧ pid ∈ master.map (·.project_id) then
        Except.ok { project_id := some pid, confidence_score := 1,
                    matching_method := "llm_direct", alternative_candidates := [],
                    extracted_info := [("llm_extracted_id", InfoVal.pyStr pid)] }
      else
        Except.ok { project_id := none, confidence_score := 0,
                    matching_method := "direct_id_failed", alternative_candidates := [],
                    extracted_info :=
                      [("llm_extracted_id", InfoVal.pyStr pid),
                       ("reason", InfoVal.pyStr "LLMが不明を返すかマスターテーブルに存在しない")] }
    | none =>
      Except.ok { project_id := none, confidence_score := 0,
                  matching_method := "direct_id_failed", alternative_candidates := [],
                  extracted_info :=
                    [("llm_extracted_id", InfoVal.pyNone),
                     ("reason", InfoVal.pyStr "LLMが不明を返すかマスターテーブルに存在しない")] }

/-- Lines 237-258 of `_strategy_vector_search`: the query parts collected from
the truthy LLM-extracted fields, in priority order. -/
def build_query_parts (info : LlmInfo) : List String :=
  match truthy_project_info info with
  | none => []
  | some d =>
    [(pget d "station_name").map (fun v => "局名: " ++ v),
     (pget d "location").map (fun v => "場所: " ++ v),
     (pget d "station_number").map (fun v => "局番: " ++ v),
     (pget d "aurora_plan").map (fun v => "Aurora計画: " ++ v),
     (pget d "responsible_person").map (fun v => "担当者: " ++ v)].filterMap id

/-- `query_text = " ".join(query_parts)`. -/
def query_text_of (info : LlmInfo) : String :=
  String.intercalate " " (build_query_parts info)

/-- `ProjectMapper._strategy_vector_search` (lines 223-311), in the situation
where `self.vector_mapper` is set (the only way `map_project` reaches it).
The body's `except` branch is unreachable in the model because every failure
of the backend is already absorbed inside `search_similar_projects`. -/
noncomputable def strategy_vector_search (ratioFn : String → String → ℝ)
    (vm : VectorState) (embed : String → Option (List ℝ)) (info : LlmInfo) :
    ProjectMapping :=
  let query_text := query_text_of info
  if pyStrip query_text = "" then
    { project_id := none, confidence_score := 0,
      matching_method := "vector_search_no_query", alternative_candidates := [],
      extracted_info := [] }
  else
    match search_similar_projects ratioFn vm embed query_text 5 0 with
    | [] =>
      { project_id := none, confidence_score := 0,
        matching_method := "vector_search_no_match", alternative_candidates := [],
        extracted_info := [("query_text", InfoVal.pyStr query_text)] }
    | best :: rest =>
      { project_id := some best.project_id,
        confidence_score := best.similarity_score,
        matching_method := "vector_search",
        alternative_candidates := (rest.take 2).map (·.project_id),
        extracted_info :=
          [("query_text", InfoVal.pyStr query_text),
           ("vector_similarity", InfoVal.pyNum best.similarity_score),
           ("matched_keywords", InfoVal.pyList best.matched_keywords)] }

/-- `ProjectMapper.map_project` (lines 109-141): direct strategy first; if its
`project_id` is truthy return it, otherwise vector search when a vector mapper
is available, otherwise fall back to the first master record at confidence
0.1, or to the failed direct mapping when the master is empty. -/
noncomputable def map_project (ratioFn : String → String → ℝ)
    (master : List ProjectRecord) (vector_mapper : Option VectorState)
    (embed : String → Option (List ℝ)) (report_content : String)
    (llm_extracted_info : LlmInfo) : Except String ProjectMapping :=
  match strategy_direct_id_extraction master llm_extracted_info with
  | Except.error e => Except.error e
  | Except.ok direct =>
    if truthyStr direct.project_id then Except.ok direct
    else
      match vector_mapper with
      | some vm => Except.ok (strategy_vector_search ratioFn vm embed llm_extracted_info)
      | none =>
        match master with
        | fallback :: _ =>
          Except.ok { project_id := some fallback.project_id,
                      confidence_score := 0.1,
                      matching_method := "fallback_first_project",
                      alternative_candidates := [],
                      extracted_info :=
                        [("reason", InfoVal.pyStr "Vector search unavailable, using fallback")] }
        | [] => Except.ok direct

/- ===== app/models/report.py: data model ===== -/

/-- `ReportType` enum. -/
inductive ReportType where
  | construction_report | trouble_report | progress_update | other
deriving DecidableEq

/-- `.value` of a `ReportType`. -/
def ReportType.value : ReportType → String
  | .construction_report => "CONSTRUCTION_REPORT"
  | .trouble_report => "TROUBLE_REPORT"
  | .progress_update => "PROGRESS_UPDATE"
  | .other => "OTHER"

/-- `ReportType(v)`: enum construction from a value, `none` modelling the
`ValueError` raised on an unknown value. -/
def ReportType.ofValue : String → Option ReportType
  | "CONSTRUCTION_REPORT" => some .construction_report
  | "TROUBLE_REPORT" => some .trouble_report
  | "PROGRESS_UPDATE" => some .progress_update
  | "OTHER" => some .other
  | _ => none

/-- `StatusFlag` enum. -/
inductive StatusFlag where
  | normal | delay_risk_low | delay_risk_high | stopped
deriving DecidableEq

/-- `.value` of a `StatusFlag`. -/
def StatusFlag.value : StatusFlag → String
  | .normal => "normal"
  | .delay_risk_low => "delay_risk_low"
  | .delay_risk_high => "delay_risk_high"
  | .stopped => "stopped"

/-- `StatusFlag(v)` enum construction (`none` = `ValueError`). -/
def StatusFlag.ofValue : String → Option StatusFlag
  | "normal" => some .normal
  | "delay_risk_low" => some .delay_risk_low
  | "delay_risk_high" => some .delay_risk_high
  | "stopped" => some .stopped
  | _ => none

/-- `RiskLevel` enum. -/
inductive RiskLevel where
  | low | medium | high
deriving DecidableEq

/-- `.value` of a `RiskLevel`. -/
def RiskLevel.value : RiskLevel → String
  | .low => "低"
  | .medium => "中"
  | .high => "高"

/-- `RiskLevel(v)` enum construction (`none` = `ValueError`). -/
def RiskLevel.ofValue : String → Option RiskLevel
  | "低" => some .low
  | "中" => some .medium
  | "高" => some .high
  | _ => none

/-- `ConstructionStatus` enum (never serialized by `_serialize_report`). -/
inductive ConstructionStatus where
  | not_started | in_progress | completed | suspended
deriving DecidableEq

/-- `FlagType` enum (legacy flags; not serialized by `_serialize_report`). -/
inductive FlagType where
  | emergency_stop | delay_risk | technical_issue | procedure_problem | requires_review
deriving DecidableEq

/-- `CategoryLabel` enum (not serialized by `_serialize_report`). -/
inductive CategoryLabel where
  | technical | administrative | stakeholder | financial
  | environmental | legal | requires_review | other
deriving DecidableEq

/-- `AnalysisResult` dataclass (`app/models/report.py` lines 58-69).  All
fields except `confidence` are required — the constructor raises `TypeError`
when `project_info`, `status`, `risk_level`, `recommended_flags` or
`urgency_score` is not supplied. -/
structure AnalysisResult where
  project_info : List (String × String)
  status : String
  issues : List String
  risk_level : String
  recommended_flags : List String
  summary : String
  urgency_score : Int
  key_points : List String
  confidence : ℝ

/-- `AnomalyDetection` dataclass. -/
structure AnomalyDetection where
  is_anomaly : Bool
  anomaly_description : String
  confidence : ℝ
  suggested_action : String
  requires_human_review : Bool
  similar_cases : List String

/-- `DocumentReport` dataclass, together with the attributes the pipeline
sets dynamically (`delay_reasons`, `urgency_score`).  Opaque JSON payloads
(`construction_progress`, `project_mapping_info`) are modelled as string
dictionaries / strings, which serialization carries verbatim. -/
structure DocumentReport where
  file_path : String
  file_name : String
  report_type : Option ReportType
  content : String
  created_at : Option Nat
  project_id : Option String := none
  analysis_result : Option AnalysisResult := none
  anomaly_detection : Option AnomalyDetection := none
  flags : List FlagType := []
  status_flag : Option StatusFlag := none
  category_labels : List CategoryLabel := []
  risk_level : Option RiskLevel := none
  construction_status : Option ConstructionStatus := none
  current_construction_phase : Option String := none
  construction_progress : Option (List (String × String)) := none
  has_unexpected_values : Bool := false
  validation_issues : List String := []
  requires_human_review : Bool := false
  analysis_confidence : ℝ := 0
  analysis_notes : Option String := none
  project_mapping_info : Option String := none
  delay_reasons : List String := []
  urgency_score : Int := 1

/- ===== scripts/preprocess_documents._serialize_report (lines 227-284) ===== -/

/-- The `analysis_result` sub-dict written by `_serialize_report`:
`key_points` is flattened to a comma-joined string. -/
structure SerializedAnalysis where
  summary : String
  issues : List String
  key_points : String
  confidence : ℝ

/-- The `anomaly_detection` sub-dict written by `_serialize_report`
(`similar_cases` is not serialized). -/
structure SerializedAnomaly where
  is_anomaly : Bool
  anomaly_description : String
  confidence : ℝ
  suggested_action : String
  requires_human_review : Bool

/-- The JSON dict written by `_serialize_report` for one report. -/
structure SerializedReport where
  file_path : String
  file_name : String
  content : String
  content_preview : String
  report_type : Option String
  created_at : Option Nat
  original_file_mtime : Option Nat
  project_id : Option String
  project_mapping_info : Option String
  status_flag : Option String
  risk_level : Option String
  has_unexpected_values : Bool
  validation_issues : List String
  requires_human_review : Bool
  analysis_confidence : ℝ
  current_construction_phase : Option String
  construction_progress : Option (List (String × String))
  delay_reasons : List String
  urgency_score : Int
  analysis_result : Option SerializedAnalysis
  anomaly_detection : Option SerializedAnomaly
  processed_at : Nat

/-- `PreprocessingService._serialize_report`, called at time `processed_at`.
`content_preview` is the first 200 codepoints plus `"..."` when the content is
longer; `created_at` and `original_file_mtime` both record
`report.created_at.isoformat()`. -/
def serialize_report (report : DocumentReport) (processed_at : Nat) : SerializedReport :=
  { file_path := report.file_path
    file_name := report.file_name
    content := report.content
    content_preview :=
      if report.content.length > 200
      then String.mk (report.content.toList.take 200) ++ "..."
      else report.content
    report_type := report.report_type.map (·.value)
    created_at := report.created_at
    original_file_mtime := report.created_at
    project_id := report.project_id
    project_mapping_info := report.project_mapping_info
    status_flag := report.status_flag.map (·.value)
    risk_level := report.risk_level.map (·.value)
    has_unexpected_values := report.has_unexpected_values
    validation_issues := report.validation_issues
    requires_human_review := report.requires_human_review
    analysis_confidence := report.analysis_confidence
    current_construction_phase := report.current_construction_phase
    construction_progress := report.construction_progress
    delay_reasons := report.delay_reasons
    urgency_score := report.urgency_score
    analysis_result := report.analysis_result.map (fun a =>
      { summary := a.summary
        issues := a.issues
        key_points := if a.key_points.isEmpty then "" else String.intercalate "," a.key_points
        confidence := a.confidence })
    anomaly_detection := report.anomaly_detection.map (fun a =>
      { is_anomaly := a.is_anomaly
        anomaly_description := a.anomaly_description
        confidence := a.confidence
        suggested_action := a.suggested_action
        requires_human_review := a.requires_human_review })
    processed_at := processed_at }

/- ===== app/utils/cache_loader.CacheLoader ===== -/

/-- Enum-style parse used by `_deserialize_report` for an optional enum field:
a missing or falsy value is skipped, a present value must parse or the whole
deserialization fails (`ValueError` caught by the surrounding `except`). -/
def parseOptEnum {α : Type} (ofValue : String → Option α) :
    Option String → Option (Option α)
  | none => some none
  | some s => if s = "" then some none else (ofValue s).map some

/-- `CacheLoader._deserialize_report` (lines 227-301).  Rebuilding
`AnalysisResult` from the JSON passes only `summary`, `issues`, `key_points`
and `confidence`, but the dataclass also requires `project_info`, `status`,
`risk_level`, `recommended_flags` and `urgency_score`; the constructor
therefore raises `TypeError`, the surrounding `except` logs it and the
function returns `None` whenever `data["analysis_result"]` is truthy.  Note
also that the rebuilt `created_at` is read from `data["processed_at"]`, not
from `data["created_at"]`. -/
def deserialize_report (data : SerializedReport) : Option DocumentReport :=
  match (match data.report_type with
         | some s => if s = "" then some ReportType.progress_update else ReportType.ofValue s
         | none => some ReportType.progress_update) with
  | none => none
  | some rt =>
    if data.analysis_result.isSome then none
    else
      match parseOptEnum StatusFlag.ofValue data.status_flag,
            parseOptEnum RiskLevel.ofValue data.risk_level with
      | some sf, some rl =>
        some { file_path := data.file_path
               file_name := data.file_name
               report_type := some rt
               content := data.content
               created_at := some data.processed_at
               project_id := data.project_id
               analysis_result := none
               anomaly_detection := data.anomaly_detection.map (fun a =>
                 { is_anomaly := a.is_anomaly
                   anomaly_description := a.anomaly_description
                   confidence := a.confidence
                   suggested_action := a.suggested_action
                   requires_human_review := a.requires_human_review
                   similar_cases := [] })
               status_flag := sf
               risk_level := rl
               construction_status := none
               current_construction_phase := data.current_construction_phase
               construction_progress := data.construction_progress
               has_unexpected_values := data.has_unexpected_values
               validation_issues := data.validation_issues
               requires_human_review := data.requires_human_review
               analysis_confidence := data.analysis_confidence
               project_mapping_info := data.project_mapping_info
               delay_reasons := data.delay_reasons
               urgency_score := data.urgency_score }
      | _, _ => none

/-- Contents of a binary `.cache` file: a faithful pickle of the report, or a
blob that `pickle.load` cannot decode. -/
inductive CacheBlob where
  | pickled : DocumentReport → CacheBlob
  | corrupt : CacheBlob

/-- The pair of files `<stem>.json` / `<stem>.cache` for one entity, each with
its content and mtime. -/
structure EntityFiles where
  json_file : Option (SerializedReport × Nat)
  cache_file : Option (CacheBlob × Nat)

/-- `PreprocessingService.process_single_file` persistence step (lines
116-128): write the JSON result file (at mtime `tj`), then pickle the report
into the binary cache (at mtime `tc`, with `tj ≤ tc` since it is written
afterwards). -/
def save_report (report : DocumentReport) (processed_at tj tc : Nat) : EntityFiles :=
  { json_file := some (serialize_report report processed_at, tj)
    cache_file := some (CacheBlob.pickled report, tc) }

/-- The JSON branch of `load_report_smart` (lines 207-225): deserialize the
JSON file and, on success, regenerate the binary cache (written at time
`now`). -/
def load_json_step (now : Nat) (fs : EntityFiles) : Option DocumentReport × EntityFiles :=
  match fs.json_file with
  | none => (none, fs)
  | some (data, _) =>
    match deserialize_report data with
    | some report => (some report, { fs with cache_file := some (CacheBlob.pickled report, now) })
    | none => (none, fs)

/-- `CacheLoader.load_report_smart` (lines 190-225): prefer the binary cache
when it exists and the JSON is absent or not newer; a corrupt binary cache is
deleted (`unlink`) before falling back to the JSON branch. -/
def load_report_smart (now : Nat) (fs : EntityFiles) : Option DocumentReport × EntityFiles :=
  match fs.cache_file with
  | some (blob, tc) =>
    if (match fs.json_file with
        | none => true
        | some (_, tj) => decide (tj ≤ tc)) then
      match blob with
      | CacheBlob.pickled report => (some report, fs)
      | CacheBlob.corrupt => load_json_step now { fs with cache_file := none }
    else load_json_step now fs
  | none => load_json_step now fs

/- ===== concrete sample inputs used by witnesses and counterexamples ===== -/

/-- A trivial stand-in for `SequenceMatcher.ratio` (never ≥ 0.8). -/
def ratio0 : String → String → ℝ := fun _ _ => 0

/-- A backend that embeds every text as the one-dimensional vector `[1]`. -/
def embed1 : String → Option (List ℝ) := fun _ => some [1]

/-- A one-record project master. -/
def masterMO : List ProjectRecord :=
  [{ project_id := "MO1234", project_name := "Shinjuku Center East", location := "" }]

/-- A one-record project master whose only id is `"A"`. -/
def masterA : List ProjectRecord :=
  [{ project_id := "A", project_name := "", location := "" }]

/-- LLM extraction carrying a valid direct project id. -/
def infoDirect : LlmInfo := ⟨some [("project_id", some "MO1234")]⟩

/-- LLM extraction carrying only a station name. -/
def infoStation : LlmInfo := ⟨some [("station_name", some "川崎")]⟩

/-- LLM extraction whose `project_id` value is JSON null. -/
def infoNullId : LlmInfo := ⟨some [("project_id", none)]⟩

/-- LLM extraction with no `project_info` at all. -/
def infoEmpty : LlmInfo := ⟨none⟩

/-- A vector store holding a single vector anti-parallel to `[1]`. -/
def vmNeg : VectorState := ⟨[("P1", [-1])], []⟩

/-- A vector store holding a single vector parallel to `[1]`. -/
def vmP1 : VectorState := ⟨[("P1", [1])], []⟩

/-- A vector store whose only key `"B"` is absent from `masterA`. -/
def vmB : VectorState := ⟨[("B", [1])], []⟩

/-- A vector store with two equal vectors stored under `"B"` before `"A"`. -/
def vmBA : VectorState := ⟨[("B", [1]), ("A", [1])], []⟩

/-- The query text built from `infoStation`. -/
def qtStation : String := "局名: 川崎"

/-- The single search result returned against `vmP1`. -/
noncomputable def resP1 : VectorSearchResult :=
  { project_id := "P1", similarity_score := 1,
    matched_keywords := extract_matched_keywords ratio0 qtStation "" }

/-- The single search result returned against `vmB`. -/
noncomputable def resB : VectorSearchResult :=
  { project_id := "B", similarity_score := 1,
    matched_keywords := extract_matched_keywords ratio0 qtStation "" }

/-- The reasoning produced for `resP1` with empty metadata. -/
def gP1 : SearchReasoning :=
  { vector_similarity := 1, project_id := "P1", matched_elements := [],
    fuzzy_matches := [], confidence := 0.6 }

/-- The fallback mapping returned for `masterMO` when no vector mapper exists. -/
def fallbackMapping : ProjectMapping :=
  { project_id := some "MO1234", confidence_score := 0.1,
    matching_method := "fallback_first_project", alternative_candidates := [],
    extracted_info := [("reason", InfoVal.pyStr "Vector search unavailable, using fallback")] }

/-- An analysis result with a comma-containing key point. -/
def sampleAnalysis : AnalysisResult :=
  { project_info := [], status := "進行中", issues := ["雨天"], risk_level := "低",
    recommended_flags := [], summary := "要約", urgency_score := 2,
    key_points := ["a", "b,c"], confidence := 0.5 }

/-- A processed report entity carrying an analysis result. -/
def sampleReport : DocumentReport :=
  { file_path := "docs/r1.txt", file_name := "r1.txt",
    report_type := some ReportType.progress_update, content := "工事は順調",
    created_at := some 100, project_id := some "MO1234",
    analysis_result := some sampleAnalysis }

/- ===== helper lemmas ===== -/

theorem sumSq_nonneg (v : List ℝ) : 0 ≤ sumSq v := by
  induction v with
  | nil => simp [sumSq, dotList]
  | cons x xs ih =>
    have h : sumSq (x :: xs) = x * x + sumSq xs := rfl
    rw [h]
    nlinarith [mul_self_nonneg x]

theorem dotList_sq_le (a b : List ℝ) : (dotList a b) ^ 2 ≤ sumSq a * sumSq b := by
  induction a generalizing b with
  | nil => simp [dotList, sumSq]
  | cons x xs ih =>
    cases b with
    | nil =>
      have h1 : dotList (x :: xs) ([] : List ℝ) = 0 := rfl
      have h2 : sumSq ([] : List ℝ) = 0 := rfl
      rw [h1, h2]; simp
    | cons y ys =>
      have hd : (dotList xs ys) ^ 2 ≤ sumSq xs * sumSq ys := ih ys
      have hsx : 0 ≤ sumSq xs := sumSq_nonneg xs
      have hsy : 0 ≤ sumSq ys := sumSq_nonneg ys
      have e1 : dotList (x :: xs) (y :: ys) = x * y + dotList xs ys := rfl
      have e2 : sumSq (x :: xs) = x * x + sumSq xs := rfl
      have e3 : sumSq (y :: ys) = y * y + sumSq ys := rfl
      rw [e1, e2, e3]
      set d := dotList xs ys
      set sx := sumSq xs
      set sy := sumSq ys
      rcases eq_or_lt_of_le hsx with hz | hpos
      · have hd0 : d = 0 := by nlinarith [sq_nonneg d]
        rw [hd0, ← hz]
        nlinarith [mul_nonneg (mul_self_nonneg x) hsy]
      · have hid : sx * ((x * x + sx) * (y * y + sy) - (x * y + d) ^ 2)
            = (x * d - y * sx) ^ 2 + (x * x + sx) * (sx * sy - d ^ 2) := by ring
        have hb : 0 ≤ (x * d - y * sx) ^ 2 + (x * x + sx) * (sx * sy - d ^ 2) := by
          have hxx : 0 ≤ (x * x + sx) := by nlinarith [mul_self_nonneg x]
          nlinarith [sq_nonneg (x * d - y * sx)]
        nlinarith [hid, hb, hpos]

theorem cosine_one_one : cosine_similarity [(1 : ℝ)] [(1 : ℝ)] = 1 := by
  have hs : sumSq [(1 : ℝ)] = 1 := by norm_num [sumSq, dotList]
  have hd : dotList [(1 : ℝ)] [(1 : ℝ)] = 1 := by norm_num [dotList]
  unfold cosine_similarity
  rw [hs, hd, Real.sqrt_one]
  norm_num

theorem cosine_one_negone : cosine_similarity [(1 : ℝ)] [(-1 : ℝ)] = -1 := by
  have hs : sumSq [(1 : ℝ)] = 1 := by norm_num [sumSq, dotList]
  have hs2 : sumSq [(-1 : ℝ)] = 1 := by norm_num [sumSq, dotList]
  have hd : dotList [(1 : ℝ)] [(-1 : ℝ)] = -1 := by norm_num [dotList]
  unfold cosine_similarity
  rw [hs, hs2, hd, Real.sqrt_one]
  norm_num

theorem oi_filter_of_ne (s : ℝ) (x : String × ℝ) (t : List (String × ℝ)) (hx : x.2 ≠ s) :
    (List.orderedInsert simDescRel x t).filter (fun p => p.2 = s)
      = t.filter (fun p => p.2 = s) := by
  induction t with
  | nil => simp [List.orderedInsert, hx]
  | cons b bs ih =>
    by_cases hr : simDescRel x b
    · simp [List.orderedInsert, hr, hx]
    · simp only [List.orderedInsert, if_neg hr]
      by_cases hb : b.2 = s
      · simp [hb, ih]
      · simp [hb, ih]

theorem oi_filter_of_eq (s : ℝ) (x : String × ℝ) (t : List (String × ℝ))
    (ht : t.Sorted simDescRel) (hx : x.2 = s) :
    (List.orderedInsert simDescRel x t).filter (fun p => p.2 = s)
      = x :: t.filter (fun p => p.2 = s) := by
  induction t with
  | nil => simp [List.orderedInsert, hx]
  | cons b bs ih =>
    by_cases hr : simDescRel x b
    · simp [List.orderedInsert, hr, hx]
    · have hxb : x.2 < b.2 := lt_of_not_le hr
      have hb : b.2 ≠ s := by rw [← hx]; exact ne_of_gt hxb
      simp only [List.orderedInsert, if_neg hr]
      rw [List.filter_cons_of_neg (by simpa using hb),
          List.filter_cons_of_neg (by simpa using hb)]
      exact ih (List.Sorted.of_cons ht)

theorem sort_filter_stable (s : ℝ) (l : List (String × ℝ)) :
    (sortBySimDesc l).filter (fun p => p.2 = s) = l.filter (fun p => p.2 = s) := by
  induction l with
  | nil => rfl
  | cons x xs ih =>
    show (List.orderedInsert simDescRel x (List.insertionSort simDescRel xs)).filter _ = _
    by_cases hx : x.2 = s
    · rw [oi_filter_of_eq s x _ (List.sorted_insertionSort simDescRel xs) hx]
      rw [List.filter_cons_of_pos (by simpa using hx)]
      exact congrArg _ ih
    · rw [oi_filter_of_ne s x _ hx]
      rw [List.filter_cons_of_neg (by simpa using hx)]
      exact ih

theorem mem_similarity_pairs {vm : VectorState} {embed : String → Option (List ℝ)}
    {qt : String} {thr : ℝ} {p : String × ℝ}
    (hp : p ∈ similarity_pairs vm embed qt thr) :
    thr ≤ p.2 ∧ p.1 ∈ vm.project_vectors.map (·.1) := by
  unfold similarity_pairs at hp
  cases hq : embed qt with
  | none => rw [hq] at hp; simp at hp
  | some qv =>
    rw [hq] at hp
    obtain ⟨pv, hpv, hif⟩ := List.mem_filterMap.mp hp
    by_cases hc : thr ≤ cosine_similarity qv pv.2
    · rw [if_pos hc] at hif
      cases hif
      exact ⟨hc, List.mem_map.mpr ⟨pv, hpv, rfl⟩⟩
    · rw [if_neg hc] at hif
      exact absurd hif (by simp)

theorem foldl_invariant {α β : Type} (P : β → Prop) (f : β → α → β) (l : List α)
    (b : β) (hb : P b) (hf : ∀ b a, P b → P (f b a)) : P (l.foldl f b) := by
  induction l generalizing b with
  | nil => exact hb
  | cons x xs ih => exact ih (f b x) (hf b x hb)

/- ===== claim theorems ===== -/

/-- C5 counterexample: the similarity computed by `_cosine_similarity` is NOT
clamped to `[0, 1]` — for the anti-parallel pair `[1]`, `[-1]` it returns
`-1`, a negative value, instead of reporting `0`. -/
theorem cosine_negative_counterexample :
    cosine_similarity [(1 : ℝ)] [(-1 : ℝ)] = -1 ∧
    cosine_similarity [(1 : ℝ)] [(-1 : ℝ)] < 0 := by
  refine ⟨cosine_one_negone, ?_⟩
  rw [cosine_one_negone]
  norm_num

/-- C5 (amended): for every pair of vectors the cosine similarity computed
during search equals `dot(a,b)/(|a||b|)` with no clamping (zero-norm pairs map
to 0); by the Cauchy-Schwarz inequality it lies in `[-1, 1]`, and negative
cosine values are returned as negative rather than reported as 0. -/
theorem cosine_similarity_bounds (v1 v2 : List ℝ) :
    -1 ≤ cosine_similarity v1 v2 ∧ cosine_similarity v1 v2 ≤ 1 := by
  unfold cosine_similarity
  by_cases h : Real.sqrt (sumSq v1) = 0 ∨ Real.sqrt (sumSq v2) = 0
  · rw [if_pos h]; norm_num
  · rw [if_neg h]
    push_neg at h
    have h1 : 0 < Real.sqrt (sumSq v1) :=
      lt_of_le_of_ne (Real.sqrt_nonneg _) (Ne.symm h.1)
    have h2 : 0 < Real.sqrt (sumSq v2) :=
      lt_of_le_of_ne (Real.sqrt_nonneg _) (Ne.symm h.2)
    have habs : |dotList v1 v2| ≤ Real.sqrt (sumSq v1) * Real.sqrt (sumSq v2) := by
      have hle := dotList_sq_le v1 v2
      have hs : Real.sqrt ((dotList v1 v2) ^ 2) ≤ Real.sqrt (sumSq v1 * sumSq v2) :=
        Real.sqrt_le_sqrt hle
      rwa [Real.sqrt_sq_eq_abs, Real.sqrt_mul (sumSq_nonneg v1)] at hs
    have hn : 0 < Real.sqrt (sumSq v1) * Real.sqrt (sumSq v2) := mul_pos h1 h2
    constructor
    · rw [le_div_iff₀ hn]
      nlinarith [abs_le.mp habs]
    · rw [div_le_one hn]
      exact (abs_le.mp habs).2

/-- C5 witness: the bounds instantiated at a concrete pair of vectors. -/
theorem cosine_similarity_bounds_witness :
    -1 ≤ cosine_similarity [(1 : ℝ)] [(1 : ℝ)] ∧ cosine_similarity [(1 : ℝ)] [(1 : ℝ)] ≤ 1 :=
  cosine_similarity_bounds [(1 : ℝ)] [(1 : ℝ)]

/-- C10: whenever either vector has zero norm, `_cosine_similarity` returns
`0.0` instead of dividing by zero, so search never fails on a zero or empty
embedding vector. -/
theorem cosine_zero_norm_returns_zero (vec1 vec2 : List ℝ)
    (h : Real.sqrt (sumSq vec1) = 0 ∨ Real.sqrt (sumSq vec2) = 0) :
    cosine_similarity vec1 vec2 = 0 := by
  unfold cosine_similarity
  rw [if_pos h]

/-- C10 witness: the empty embedding vector has zero norm and yields
similarity 0 against `[3]`. -/
theorem cosine_zero_norm_returns_zero_witness :
    (Real.sqrt (sumSq ([] : List ℝ)) = 0 ∨ Real.sqrt (sumSq [(3 : ℝ)]) = 0) ∧
    cosine_similarity [] [(3 : ℝ)] = 0 := by
  have h0 : Real.sqrt (sumSq ([] : List ℝ)) = 0 := by
    have hz : sumSq ([] : List ℝ) = 0 := rfl
    rw [hz, Real.sqrt_zero]
  exact ⟨Or.inl h0, cosine_zero_norm_returns_zero _ _ (Or.inl h0)⟩

/-- C7: the claim that `map_project` never raises is violated by the code:
when `llm_extracted_info` contains a `project_info` dict whose `project_id`
value is JSON null, `_strategy_direct_id_extraction` calls `.strip()` on
`None` and the resulting `AttributeError` propagates uncaught out of
`map_project`. -/
theorem map_project_raises_on_null_project_id :
    map_project ratio0 [] none embed1 "" infoNullId =
      Except.error "AttributeError: NoneType object has no attribute strip" := rfl

/-- C8: saving a processed report (JSON result plus binary cache, the binary
written no earlier than the JSON) and loading it back through
`load_report_smart` returns a value deep-equal to the original entity —
the fresh binary cache is preferred and `pickle` round-trips the full object,
including `key_points`, `content` and `created_at`. -/
theorem save_load_roundtrip (report : DocumentReport) (processed_at tj tc now : Nat)
    (h : tj ≤ tc) :
    (load_report_smart now (save_report report processed_at tj tc)).1 = some report := by
  unfold load_report_smart save_report
  simp [h]

/-- C8 witness: the round trip instantiated at a concrete report whose
analysis result has a comma-containing key point. -/
theorem save_load_roundtrip_witness :
    0 ≤ 0 ∧ (load_report_smart 7 (save_report sampleReport 3 0 0)).1 = some sampleReport :=
  ⟨Nat.le.refl, save_load_roundtrip sampleReport 3 0 0 7 Nat.le.refl⟩

/-- C9: the JSON-fallback recovery is broken for reports carrying an
`analysis_result`: with the binary cache corrupt and the JSON intact and not
newer, `load_report_smart` deletes the corrupt binary but `_deserialize_report`
raises `TypeError` (its `AnalysisResult(...)` call omits five required
dataclass fields), so the load returns `None` and no binary cache is
rewritten — instead of returning the reconstructed entity. -/
theorem corrupt_cache_json_fallback_returns_none :
    deserialize_report (serialize_report sampleReport 3) = none ∧
    load_report_smart 7
        { json_file := some (serialize_report sampleReport 3, 0),
          cache_file := some (CacheBlob.corrupt, 1) } =
      (none, { json_file := some (serialize_report sampleReport 3, 0), cache_file := none }) ∧
    sampleReport.analysis_result.isSome = true :=
  ⟨rfl, rfl, rfl⟩

theorem query_text_infoStation : query_text_of infoStation = qtStation := rfl

theorem qtStation_trim_ne : pyStrip qtStation ≠ "" := by decide

theorem pairs_vmNeg : similarity_pairs vmNeg embed1 qtStation 0 = [] := by
  simp only [similarity_pairs, embed1, vmNeg]
  simp [cosine_one_negone]

theorem pairs_vmP1 : similarity_pairs vmP1 embed1 qtStation 0 = [("P1", (1 : ℝ))] := by
  simp only [similarity_pairs, embed1, vmP1]
  simp [cosine_one_one]

theorem pairs_vmB : similarity_pairs vmB embed1 qtStation 0 = [("B", (1 : ℝ))] := by
  simp only [similarity_pairs, embed1, vmB]
  simp [cosine_one_one]

theorem pairs_vmBA : similarity_pairs vmBA embed1 qtStation 0 =
    [("B", (1 : ℝ)), ("A", (1 : ℝ))] := by
  simp only [similarity_pairs, embed1, vmBA]
  simp [cosine_one_one]

theorem sort_single (p : String × ℝ) : sortBySimDesc [p] = [p] := by
  simp [sortBySimDesc, List.insertionSort, List.orderedInsert]

theorem sort_BA : sortBySimDesc [("B", (1 : ℝ)), ("A", (1 : ℝ))]
    = [("B", (1 : ℝ)), ("A", (1 : ℝ))] := by
  have hr : simDescRel ("B", (1 : ℝ)) ("A", (1 : ℝ)) := le_refl 1
  simp [sortBySimDesc, List.insertionSort, List.orderedInsert, hr]

theorem search_vmNeg : search_similar_projects ratio0 vmNeg embed1 qtStation 5 0 = [] := by
  unfold search_similar_projects
  rw [pairs_vmNeg]
  simp [vmNeg, sortBySimDesc, List.insertionSort]

theorem search_vmP1 : search_similar_projects ratio0 vmP1 embed1 qtStation 5 0 = [resP1] := by
  unfold search_similar_projects
  rw [pairs_vmP1, sort_single]
  simp [vmP1, resP1, descriptionOf, mget]

theorem search_vmB : search_similar_projects ratio0 vmB embed1 qtStation 5 0 = [resB] := by
  unfold search_similar_projects
  rw [pairs_vmB, sort_single]
  simp [vmB, resB, descriptionOf, mget]

theorem dir_fail_infoStation (master : List ProjectRecord) :
    strategy_direct_id_extraction master infoStation =
    Except.ok { project_id := none, confidence_score := 0,
                matching_method := "direct_id_failed", alternative_candidates := [],
                extracted_info :=
                  [("llm_extracted_id", InfoVal.pyStr ""),
                   ("reason", InfoVal.pyStr "LLMが不明を返すかマスターテーブルに存在しない")] } := rfl

/-- C1: when the LLM-extracted project id is non-empty, differs from the
sentinel `"不明"` and occurs verbatim in the project master, `map_project`
returns that id with confidence 1.0 and the direct method `"llm_direct"`; the
result is the same for every ratio function, vector mapper and embedding
backend, so vector search is never consulted. -/
theorem direct_id_match_resolves_directly (master : List ProjectRecord) (content : String)
    (info : LlmInfo) (pid : String)
    (h1 : llm_extracted_id info = Except.ok (some pid)) (h2 : pid ≠ "")
    (h3 : pid ≠ "不明") (h4 : pid ∈ master.map (·.project_id)) :
    ∀ (ratioFn : String → String → ℝ) (vector_mapper : Option VectorState)
      (embed : String → Option (List ℝ)),
      map_project ratioFn master vector_mapper embed content info =
        Except.ok { project_id := some pid, confidence_score := 1,
                    matching_method := "llm_direct", alternative_candidates := [],
                    extracted_info := [("llm_extracted_id", InfoVal.pyStr pid)] } := by
  intro ratioFn vmo embed
  have hdir : strategy_direct_id_extraction master info =
      Except.ok { project_id := some pid, confidence_score := 1,
                  matching_method := "llm_direct", alternative_candidates := [],
                  extracted_info := [("llm_extracted_id", InfoVal.pyStr pid)] } := by
    unfold strategy_direct_id_extraction
    rw [h1]
    simp only []
    rw [if_pos ⟨h2, h3, h4⟩]
  unfold map_project
  rw [hdir]
  have ht : truthyStr (some pid) = true := by simp [truthyStr, h2]
  simp [ht]

/-- C1 witness: the direct match instantiated on a concrete master and a
concrete LLM extraction. -/
theorem direct_id_match_resolves_directly_witness :
    llm_extracted_id infoDirect = Except.ok (some "MO1234") ∧ "MO1234" ≠ "" ∧
    "MO1234" ≠ "不明" ∧ "MO1234" ∈ masterMO.map (·.project_id) ∧
    map_project ratio0 masterMO none embed1 "" infoDirect =
      Except.ok { project_id := some "MO1234", confidence_score := 1,
                  matching_method := "llm_direct", alternative_candidates := [],
                  extracted_info := [("llm_extracted_id", InfoVal.pyStr "MO1234")] } :=
  ⟨rfl, by decide, by decide, by decide,
   direct_id_match_resolves_directly masterMO "" infoDirect "MO1234" rfl
     (by decide) (by decide) (by decide) ratio0 none embed1⟩

/-- C2: the claim that a non-empty vector store plus non-empty query text
always yields a non-null vector-search result fails on the code: cosine
similarities are not clamped, so when every stored vector has negative cosine
similarity to the query embedding, the `similarity >= 0.0` filter discards
everything and `map_project` returns the unresolved
`"vector_search_no_match"` mapping. -/
theorem vector_search_no_match_on_negative_similarity :
    (map_project ratio0 [] (some vmNeg) embed1 "" infoStation).map
        (fun m => (m.project_id, m.matching_method)) =
      Except.ok ((none : Option String), "vector_search_no_match") ∧
    vmNeg.project_vectors ≠ [] ∧ pyStrip (query_text_of infoStation) ≠ "" := by
  refine ⟨?_, by simp [vmNeg], by rw [query_text_infoStation]; exact qtStation_trim_ne⟩
  unfold map_project
  rw [dir_fail_infoStation []]
  simp only [truthyStr]
  unfold strategy_vector_search
  rw [query_text_infoStation]
  rw [if_neg qtStation_trim_ne]
  rw [search_vmNeg]
  simp [Except.map]

/-- C4 counterexample: ties are NOT broken by ascending `project_id`.  With
two stored vectors of equal similarity inserted under `"B"` before `"A"`,
the search returns `"B"` first although `"A" < "B"` — Python's stable sort
keeps the dict insertion order on equal keys. -/
theorem search_tie_order_counterexample :
    (search_similar_projects ratio0 vmBA embed1 qtStation 5 0).map (·.project_id)
      = ["B", "A"] ∧
    (search_similar_projects ratio0 vmBA embed1 qtStation 5 0).map (·.similarity_score)
      = [(1 : ℝ), 1] ∧
    "A" < "B" := by
  refine ⟨?_, ?_, by rw [String.lt_iff_toList_lt]; decide⟩ <;>
  · unfold search_similar_projects
    rw [pairs_vmBA, sort_BA]
    simp [vmBA]

/-- C4 (amended): for every query, `top_k` and `threshold`,
`search_similar_projects` returns at most `top_k` results, all with similarity
at least `threshold`, sorted in descending order of similarity; results of
equal similarity keep the insertion order of the stored vectors (Python's
stable sort) — they are NOT reordered by ascending `project_id`. -/
theorem search_topk_sorted_stable (ratioFn : String → String → ℝ) (vm : VectorState)
    (embed : String → Option (List ℝ)) (query_text : String) (top_k : ℕ) (threshold : ℝ) :
    (search_similar_projects ratioFn vm embed query_text top_k threshold).length ≤ top_k ∧
    (∀ r ∈ search_similar_projects ratioFn vm embed query_text top_k threshold,
      threshold ≤ r.similarity_score) ∧
    (search_similar_projects ratioFn vm embed query_text top_k threshold).Pairwise
      (fun a b => b.similarity_score ≤ a.similarity_score) ∧
    (∀ s : ℝ,
      List.Sublist
        (((search_similar_projects ratioFn vm embed query_text top_k threshold).filter
            (fun r => r.similarity_score = s)).map
            (fun r => (r.project_id, r.similarity_score)))
        ((similarity_pairs vm embed query_text threshold).filter (fun p => p.2 = s))) := by
  by_cases hemp : vm.project_vectors.isEmpty
  · unfold search_similar_projects
    rw [if_pos hemp]
    exact ⟨by simp, by simp, by simp, fun s => by simp⟩
  · have hres : search_similar_projects ratioFn vm embed query_text top_k threshold =
        ((sortBySimDesc (similarity_pairs vm embed query_text threshold)).take top_k).map
          (fun pr => { project_id := pr.1, similarity_score := pr.2,
                       matched_keywords := extract_matched_keywords ratioFn query_text
                         (descriptionOf vm pr.1) }) := by
      unfold search_similar_projects
      rw [if_neg hemp]
    rw [hres]
    refine ⟨?_, ?_, ?_, ?_⟩
    · rw [List.length_map]
      exact le_trans (le_of_eq (List.length_take _ _)) (min_le_left _ _)
    · intro r hr
      obtain ⟨pr, hpr, hre⟩ := List.mem_map.mp hr
      have hmem : pr ∈ sortBySimDesc (similarity_pairs vm embed query_text threshold) :=
        (List.take_sublist _ _).subset hpr
      have hmem2 : pr ∈ similarity_pairs vm embed query_text threshold :=
        ((List.perm_insertionSort simDescRel _).mem_iff).mp hmem
      have hth := (mem_similarity_pairs hmem2).1
      rw [← hre]
      exact hth
    · have hsorted := List.sorted_insertionSort simDescRel
        (similarity_pairs vm embed query_text threshold)
      have htake := List.Pairwise.sublist (List.take_sublist top_k _) hsorted
      exact List.pairwise_map.mpr (htake.imp (fun h => h))
    · intro s
      rw [List.filter_map, List.map_map]
      have hfun : ((fun r : VectorSearchResult => (r.project_id, r.similarity_score)) ∘
          (fun pr : String × ℝ =>
            ({ project_id := pr.1, similarity_score := pr.2,
               matched_keywords := extract_matched_keywords ratioFn query_text
                 (descriptionOf vm pr.1) } : VectorSearchResult)))
          = fun pr : String × ℝ => pr := rfl
      have hpred : ((fun r : VectorSearchResult => decide (r.similarity_score = s)) ∘
          (fun pr : String × ℝ =>
            ({ project_id := pr.1, similarity_score := pr.2,
               matched_keywords := extract_matched_keywords ratioFn query_text
                 (descriptionOf vm pr.1) } : VectorSearchResult)))
          = fun pr : String × ℝ => decide (pr.2 = s) := rfl
      rw [hfun, hpred, List.map_id']
      have h1 := List.Sublist.filter (fun pr : String × ℝ => decide (pr.2 = s))
        (List.take_sublist top_k
          (sortBySimDesc (similarity_pairs vm embed query_text threshold)))
      have h2 := sort_filter_stable s (similarity_pairs vm embed query_text threshold)
      exact h2 ▸ h1

/-- C4 witness: the amended statement instantiated at a concrete store and
query. -/
theorem search_topk_sorted_stable_witness :
    (search_similar_projects ratio0 vmP1 embed1 qtStation 5 0).length ≤ 5 ∧
    (∀ r ∈ search_similar_projects ratio0 vmP1 embed1 qtStation 5 0,
      (0 : ℝ) ≤ r.similarity_score) ∧
    (search_similar_projects ratio0 vmP1 embed1 qtStation 5 0).Pairwise
      (fun a b => b.similarity_score ≤ a.similarity_score) ∧
    (∀ s : ℝ,
      List.Sublist
        (((search_similar_projects ratio0 vmP1 embed1 qtStation 5 0).filter
            (fun r => r.similarity_score = s)).map
            (fun r => (r.project_id, r.similarity_score)))
        ((similarity_pairs vmP1 embed1 qtStation 0).filter (fun p => p.2 = s))) :=
  search_topk_sorted_stable ratio0 vmP1 embed1 qtStation 5 0

theorem direct_ok_cases {master : List ProjectRecord} {info : LlmInfo} {d : ProjectMapping}
    (h : strategy_direct_id_extraction master info = Except.ok d) :
    d.project_id = none ∨
      ∃ p, d.project_id = some p ∧ p ≠ "" ∧ p ∈ master.map (·.project_id) := by
  unfold strategy_direct_id_extraction at h
  split at h
  · exact absurd h (by simp)
  · split at h
    · split at h
      · next hcond =>
        injection h with h'
        rw [← h']
        exact Or.inr ⟨_, rfl, hcond.1, hcond.2.2⟩
      · injection h with h'
        rw [← h']
        exact Or.inl rfl
    · injection h with h'
      rw [← h']
      exact Or.inl rfl

theorem mem_search_ids {ratioFn : String → String → ℝ} {vm : VectorState}
    {embed : String → Option (List ℝ)} {qt : String} {k : ℕ} {thr : ℝ}
    {r : VectorSearchResult}
    (hr : r ∈ search_similar_projects ratioFn vm embed qt k thr) :
    r.project_id ∈ vm.project_vectors.map (·.1) := by
  unfold search_similar_projects at hr
  by_cases hemp : vm.project_vectors.isEmpty
  · rw [if_pos hemp] at hr; simp at hr
  · rw [if_neg hemp] at hr
    obtain ⟨pr, hpr, hre⟩ := List.mem_map.mp hr
    have hmem : pr ∈ sortBySimDesc (similarity_pairs vm embed qt thr) :=
      (List.take_sublist _ _).subset hpr
    have hmem2 : pr ∈ similarity_pairs vm embed qt thr :=
      ((List.perm_insertionSort simDescRel _).mem_iff).mp hmem
    have hid := (mem_similarity_pairs hmem2).2
    rw [← hre]
    exact hid

theorem vector_ok_project_id_mem {ratioFn : String → String → ℝ} {vm : VectorState}
    {embed : String → Option (List ℝ)} {info : LlmInfo} {pid : String}
    (h : (strategy_vector_search ratioFn vm embed info).project_id = some pid) :
    pid ∈ vm.project_vectors.map (·.1) := by
  simp only [strategy_vector_search] at h
  by_cases hq : pyStrip (query_text_of info) = ""
  · rw [if_pos hq] at h; simp at h
  · rw [if_neg hq] at h
    cases hs : search_similar_projects ratioFn vm embed (query_text_of info) 5 0 with
    | nil => rw [hs] at h; simp at h
    | cons best rest =>
      rw [hs] at h
      simp only at h
      have hb : best ∈ search_similar_projects ratioFn vm embed (query_text_of info) 5 0 := by
        rw [hs]; exact List.mem_cons_self _ _
      have hmem := mem_search_ids hb
      injection h with h2
      rwa [h2] at hmem

/-- C6 counterexample: the invariant fails when the pickled vector cache is
stale relative to the master: with master ids `["A"]` but a cached vector
stored under `"B"`, `map_project` resolves to `"B"`, which is not a
`project_id` of any loaded master record. -/
theorem vector_result_not_in_master_counterexample :
    (map_project ratio0 masterA (some vmB) embed1 "" infoStation).map
        (fun m => m.project_id) = Except.ok (some "B") ∧
    "B" ∉ masterA.map (·.project_id) := by
  refine ⟨?_, by decide⟩
  unfold map_project
  rw [dir_fail_infoStation masterA]
  simp only [truthyStr]
  simp only [strategy_vector_search, query_text_infoStation]
  rw [if_neg qtStation_trim_ne]
  rw [search_vmB]
  simp [Except.map, resB]

/-- C6 (amended): every non-null `project_id` returned by `map_project` is
either a `project_id` of the loaded project master (direct and
first-record-fallback paths) or a key of the loaded vector cache (vector
path).  The stronger claim — always present in the master — fails because the
pickled vector cache is loaded independently of the master and may be stale. -/
theorem project_id_in_master_or_vector_cache
    (ratioFn : String → String → ℝ) (master : List ProjectRecord)
    (vector_mapper : Option VectorState) (embed : String → Option (List ℝ))
    (content : String) (info : LlmInfo) (m : ProjectMapping) (pid : String)
    (h : map_project ratioFn master vector_mapper embed content info = Except.ok m)
    (hp : m.project_id = some pid) :
    pid ∈ master.map (·.project_id) ∨
      ∃ vm, vector_mapper = some vm ∧ pid ∈ vm.project_vectors.map (·.1) := by
  unfold map_project at h
  rcases hd : strategy_direct_id_extraction master info with e | direct
  · rw [hd] at h; exact absurd h (by simp)
  · rw [hd] at h
    simp only at h
    by_cases ht : truthyStr direct.project_id
    · rw [if_pos ht] at h
      injection h with h'
      rcases direct_ok_cases hd with hnone | ⟨p, hpe, _, hmem⟩
      · rw [h', hp] at hnone; cases hnone
      · rw [h', hp] at hpe
        injection hpe with hpe2
        rw [hpe2]
        exact Or.inl hmem
    · rw [if_neg ht] at h
      cases vector_mapper with
      | some vm =>
        simp only at h
        injection h with h'
        exact Or.inr ⟨vm, rfl, vector_ok_project_id_mem (h' ▸ hp)⟩
      | none =>
        cases master with
        | nil =>
          simp only at h
          injection h with h'
          rcases direct_ok_cases hd with hnone | ⟨p, hpe, _, hmem⟩
          · rw [h', hp] at hnone; cases hnone
          · simp at hmem
        | cons fb rest =>
          simp only at h
          injection h with h'
          rw [← h'] at hp
          simp only at hp
          injection hp with hp2
          rw [← hp2]
          exact Or.inl (List.mem_map.mpr ⟨fb, List.mem_cons_self _ _, rfl⟩)

/-- C6 witness: the amended invariant instantiated on the fallback path. -/
theorem project_id_in_master_or_vector_cache_witness :
    map_project ratio0 masterMO none embed1 "" infoEmpty = Except.ok fallbackMapping ∧
    fallbackMapping.project_id = some "MO1234" ∧
    ("MO1234" ∈ masterMO.map (·.project_id) ∨
      ∃ vm, (none : Option VectorState) = some vm ∧
        "MO1234" ∈ vm.project_vectors.map (·.1)) :=
  ⟨rfl, rfl,
   project_id_in_master_or_vector_cache ratio0 masterMO none embed1 "" infoEmpty
     fallbackMapping "MO1234" rfl rfl⟩

theorem gsrMatchStep_kinds (ratioFn : String → String → ℝ) (md : List (String × String))
    (qt : String) (qw : List String) (acc : List MatchedElement × List FuzzyMatch)
    (fk : String × String)
    (hacc : ∀ m ∈ acc.1, m.matchKind = "完全一致" ∨ m.matchKind = "部分一致") :
    ∀ m ∈ (gsrMatchStep ratioFn md qt qw acc fk).1,
      m.matchKind = "完全一致" ∨ m.matchKind = "部分一致" := by
  intro m hm
  simp only [gsrMatchStep] at hm
  by_cases h1 : (mget md fk.1).getD "" = "" ∨ (mget md fk.1).getD "" = "不明"
  · rw [if_pos h1] at hm; exact hacc m hm
  · rw [if_neg h1] at hm
    by_cases h2 : inStr ((mget md fk.1).getD "") qt
    · rw [if_pos h2] at hm
      simp only at hm
      rcases List.mem_append.mp hm with hold | hnew
      · exact hacc m hold
      · simp only [List.mem_singleton] at hnew
        rw [hnew]
        exact Or.inl rfl
    · rw [if_neg h2] at hm
      refine foldl_invariant
        (fun acc2 : List MatchedElement × List FuzzyMatch =>
          ∀ m2 ∈ acc2.1, m2.matchKind = "完全一致" ∨ m2.matchKind = "部分一致")
        _ _ acc hacc ?_ m hm
      intro b a hb m2 hm2
      by_cases hl : a.length < 2
      · rw [if_pos hl] at hm2; exact hb m2 hm2
      · rw [if_neg hl] at hm2
        by_cases hq2 : a ∈ qw
        · rw [if_pos hq2] at hm2
          simp only at hm2
          rcases List.mem_append.mp hm2 with hold | hnew
          · exact hb m2 hold
          · simp only [List.mem_singleton] at hnew
            rw [hnew]
            exact Or.inr rfl
        · rw [if_neg hq2] at hm2
          exact hb m2 hm2

theorem gsr_confidence_formula (ratioFn : String → String → ℝ)
    (md : List (String × List (String × String))) (qt : String)
    (top : VectorSearchResult) (rest : List VectorSearchResult) (g : SearchReasoning)
    (h : generate_search_reasoning ratioFn md qt (top :: rest) = some g) :
    g.confidence = adjusted_confidence top.similarity_score
      (g.matched_elements.length + g.fuzzy_matches.length) := by
  simp only [generate_search_reasoning] at h
  injection h with h'
  subst h'
  simp only
  set mf := gsrMasterFields.foldl
    (gsrMatchStep ratioFn ((mget md top.project_id).getD []) qt (pySet (tokenize true qt)))
    ([], []) with hmf
  have hkinds : ∀ m ∈ mf.1, m.matchKind = "完全一致" ∨ m.matchKind = "部分一致" := by
    rw [hmf]
    exact foldl_invariant
      (fun acc : List MatchedElement × List FuzzyMatch =>
        ∀ m ∈ acc.1, m.matchKind = "完全一致" ∨ m.matchKind = "部分一致")
      _ _ _ (by intro m hm; simp at hm)
      (fun b a hb => gsrMatchStep_kinds ratioFn _ qt _ b a hb)
  have hfilter : mf.1.filter
      (fun m => m.matchKind == "完全一致" || m.matchKind == "部分一致") = mf.1 := by
    apply List.filter_eq_self.mpr
    intro m hm
    rcases hkinds m hm with h1 | h1 <;> simp [h1]
  rw [hfilter]
  unfold adjusted_confidence
  by_cases hz : mf.1.length + mf.2.length = 0
  · have h1 : mf.1 = [] := List.eq_nil_of_length_eq_zero (Nat.eq_zero_of_add_eq_zero_right hz)
    have h2 : mf.2 = [] := List.eq_nil_of_length_eq_zero (Nat.eq_zero_of_add_eq_zero_left hz)
    rw [if_pos hz]
    rw [if_neg (by rw [hz]; exact lt_irrefl 0)]
    rw [if_pos ⟨by rw [h1]; rfl, by rw [h2]; rfl⟩]
  · rw [if_neg hz]
    have hpos : 0 < mf.1.length + mf.2.length := Nat.pos_of_ne_zero hz
    rw [if_pos hpos]
    have hne : ¬(mf.1.isEmpty = true ∧ mf.2.isEmpty = true) := by
      intro ⟨ha, hb⟩
      rw [List.isEmpty_iff] at ha hb
      rw [ha, hb] at hz
      exact hz rfl
    rw [if_neg hne]

theorem vector_confidence_is_raw (ratioFn : String → String → ℝ) (vm : VectorState)
    (embed : String → Option (List ℝ)) (info : LlmInfo) (r : VectorSearchResult)
    (rs : List VectorSearchResult)
    (hq : pyStrip (query_text_of info) ≠ "")
    (hs : search_similar_projects ratioFn vm embed (query_text_of info) 5 0 = r :: rs) :
    (strategy_vector_search ratioFn vm embed info).confidence_score = r.similarity_score := by
  simp only [strategy_vector_search]
  rw [if_neg hq, hs]

theorem gsr_resP1_eval : generate_search_reasoning ratio0 [] qtStation [resP1] = some gP1 := by
  simp only [generate_search_reasoning]
  have hmd : (mget ([] : List (String × List (String × String))) resP1.project_id).getD [] =
      ([] : List (String × String)) := rfl
  rw [hmd]
  have hfold : gsrMasterFields.foldl
      (gsrMatchStep ratio0 [] qtStation (pySet (tokenize true qtStation))) ([], []) =
      (([] : List MatchedElement), ([] : List FuzzyMatch)) := by
    simp [gsrMasterFields, gsrMatchStep, mget]
  rw [hfold]
  simp only [List.filter_nil, List.isEmpty_nil, List.length_nil]
  rw [if_neg (by norm_num : ¬ ((0 : ℕ) < 0 + 0))]
  rw [if_pos ⟨trivial, trivial⟩]
  have hsim : resP1.similarity_score = 1 := rfl
  rw [hsim]
  have hmin : min (1 : ℝ) 0.6 = 0.6 := by norm_num
  rw [hmin]
  rfl

/-- C3 counterexample: `map_project` reports the raw vector similarity, not
the evidence-adjusted one: against a store whose metadata is empty there are
no lexical matches, so the adjusted confidence is capped at 0.6, yet the
returned `confidence_score` is the raw similarity 1. -/
theorem vector_confidence_not_adjusted_counterexample :
    (map_project ratio0 [] (some vmP1) embed1 "" infoStation).map
        (fun m => m.confidence_score) = Except.ok (1 : ℝ) ∧
    (generate_search_reasoning ratio0 vmP1.project_metadata qtStation
        (search_similar_projects ratio0 vmP1 embed1 qtStation 5 0)).map
        (fun g => g.confidence) = some (0.6 : ℝ) ∧
    (1 : ℝ) ≠ 0.6 := by
  refine ⟨?_, ?_, by norm_num⟩
  · unfold map_project
    rw [dir_fail_infoStation []]
    simp only [truthyStr]
    simp only [strategy_vector_search, query_text_infoStation]
    rw [if_neg qtStation_trim_ne, search_vmP1]
    simp [Except.map, resP1]
  · rw [search_vmP1]
    have hpm : vmP1.project_metadata = [] := rfl
    rw [hpm, gsr_resP1_eval]
    simp [gP1]

/-- C3 (amended): for a vector-resolved result, `map_project` reports the raw
top vector similarity as `confidence_score`; the evidence-adjusted confidence
— base similarity boosted by 0.05 per exact/fuzzy match capped at 0.95 when a
match exists, and capped at 0.6 with no lexical match — is computed only in
the `confidence` field of `generate_search_reasoning`, which `map_project`
does not consult. -/
theorem vector_confidence_raw_not_adjusted :
    (∀ (ratioFn : String → String → ℝ) (vm : VectorState)
        (embed : String → Option (List ℝ)) (info : LlmInfo)
        (r : VectorSearchResult) (rs : List VectorSearchResult),
        pyStrip (query_text_of info) ≠ "" →
        search_similar_projects ratioFn vm embed (query_text_of info) 5 0 = r :: rs →
        (strategy_vector_search ratioFn vm embed info).confidence_score
          = r.similarity_score) ∧
    (∀ (ratioFn : String → String → ℝ) (md : List (String × List (String × String)))
        (qt : String) (top : VectorSearchResult) (rest : List VectorSearchResult)
        (g : SearchReasoning),
        generate_search_reasoning ratioFn md qt (top :: rest) = some g →
        g.confidence = adjusted_confidence top.similarity_score
          (g.matched_elements.length + g.fuzzy_matches.length)) :=
  ⟨vector_confidence_is_raw, gsr_confidence_formula⟩

/-- C3 witness: both parts instantiated at a concrete store, query and
reasoning. -/
theorem vector_confidence_raw_not_adjusted_witness :
    (pyStrip (query_text_of infoStation) ≠ "" ∧
     search_similar_projects ratio0 vmP1 embed1 (query_text_of infoStation) 5 0 = [resP1] ∧
     (strategy_vector_search ratio0 vmP1 embed1 infoStation).confidence_score
       = resP1.similarity_score) ∧
    (generate_search_reasoning ratio0 [] qtStation [resP1] = some gP1 ∧
     gP1.confidence = adjusted_confidence resP1.similarity_score
       (gP1.matched_elements.length + gP1.fuzzy_matches.length)) := by
  have hq : pyStrip (query_text_of infoStation) ≠ "" := by
    rw [query_text_infoStation]; exact qtStation_trim_ne
  have hs : search_similar_projects ratio0 vmP1 embed1 (query_text_of infoStation) 5 0
      = [resP1] := by
    rw [query_text_infoStation]; exact search_vmP1
  exact ⟨⟨hq, hs,
      vector_confidence_raw_not_adjusted.1 ratio0 vmP1 embed1 infoStation resP1 [] hq hs⟩,
    ⟨gsr_resP1_eval,
      vector_confidence_raw_not_adjusted.2 ratio0 [] qtStation resP1 [] gP1 gsr_resP1_eval⟩⟩
